import Mathlib

/-!
Verification of the EMR HL7-to-FHIR pipeline.

We give a shallow embedding of the Python sources:
  * `emr_server/hl7_converter.py` (HL7 → FHIR mapping), and
  * `integration_service/hl7_generator.py` / `patient_service.py`
    (patient data → HL7 ADT generation).

Python strings are modelled as `List Char` (`Str`); Python's
`str.split`, `str.replace`, `str.strip`, `str.zfill`, `str.upper` are
modelled by the structurally recursive functions below, and the
`python-hl7` library's `hl7.parse` is modelled as: strip the message,
split it on CR into segments, split each segment on `|` into fields
(a field is kept as its raw text, which is what `str(field)` returns).
Fallible code returns `Except`.  `datetime.now().strftime(...)` is
modelled by passing the formatted timestamp string as an argument.
-/

set_option maxRecDepth 20000

abbrev Str := List Char

/-- Python `s.split(c)` for a one-character separator: always returns a
non-empty list of (possibly empty) parts. -/
def splitOnChar (c : Char) : Str → List Str
  | [] => [[]]
  | x :: xs =>
    if x = c then [] :: splitOnChar c xs
    else
      match splitOnChar c xs with
      | [] => [[x]]
      | y :: ys => (x :: y) :: ys

/-- Python `s.replace('\r\n', '\r')`: left-to-right, non-overlapping. -/
def normCRLF : Str → Str
  | [] => []
  | [x] => [x]
  | x :: y :: rest =>
    if x = '\r' ∧ y = '\n' then '\r' :: normCRLF rest
    else x :: normCRLF (y :: rest)

/-- Python `s.replace('\n', '\r')`. -/
def lfToCr (s : Str) : Str := s.map (fun c => if c = '\n' then '\r' else c)

/-- Python `s.strip()` (whitespace at both ends). -/
def pyStrip (s : Str) : Str :=
  ((s.dropWhile Char.isWhitespace).reverse.dropWhile Char.isWhitespace).reverse

/-- Python `s.zfill(w)`: pad with leading zeros, keeping a leading sign. -/
def zfill (w : Nat) (s : Str) : Str :=
  if w ≤ s.length then s
  else
    match s with
    | [] => List.replicate w '0'
    | c :: rest =>
      if c = '+' ∨ c = '-' then c :: (List.replicate (w - s.length) '0' ++ rest)
      else List.replicate (w - s.length) '0' ++ (c :: rest)

/-- Python `s.upper()` (ASCII). -/
def pyUpper (s : Str) : Str := s.map Char.toUpper

/-- Python truthiness of an `Optional[str]`: `None` and `""` are falsy. -/
def truthy : Option Str → Bool
  | none => false
  | some s => !s.isEmpty

/-- Python `x or ""` for `x : Optional[str]`. -/
def orEmpty : Option Str → Str
  | none => []
  | some s => s

/-- `segment[i]` on a parsed segment, as the raw field text (out of range
never happens on the guarded accesses in the source; we default to `""`). -/
def fieldAt (seg : List Str) (i : Nat) : Str := (seg.get? i).getD []

/-! ## FHIR resource shapes (the dictionaries built by `hl7_converter.py`) -/

structure Coding where
  system : Str
  code : Str
  display : Str
deriving DecidableEq, Repr

structure FhirIdentifier where
  use : Str
  coding : Coding
  value : Str
deriving DecidableEq, Repr

structure HumanName where
  use : Str
  family : Str
  given : List Str
deriving DecidableEq, Repr

structure Patient where
  identifier : List FhirIdentifier
  name : List HumanName
  gender : Str
  birthDate : Option Str
deriving DecidableEq, Repr

/-- One entry of a Coverage `class` list; the `name` key is only set for
plan entries. -/
structure CoverageClass where
  coding : Coding
  value : Str
  name : Option Str
deriving DecidableEq, Repr

/-- A Coverage resource; `cls` models the `class` list, `[]` standing for
the key being absent (the source only ever creates the key together with
its first entry). -/
structure Coverage where
  status : Str
  beneficiary : Str
  payor : List Str
  subscriberId : Option Str
  cls : List CoverageClass
deriving DecidableEq, Repr

/-- The result dictionary of `convert_hl7_to_fhir`: both keys are
initialised to `None` in the source, modelled as `Option`. -/
structure ConvResult where
  patient : Option Patient
  coverage : Option Coverage
deriving DecidableEq, Repr

def mrCoding : Coding :=
  ⟨"http://terminology.hl7.org/CodeSystem/v2-0203".data, "MR".data,
   "Medical Record Number".data⟩

def groupCoding : Coding :=
  ⟨"http://terminology.hl7.org/CodeSystem/coverage-class".data, "group".data,
   "Group".data⟩

def planCoding : Coding :=
  ⟨"http://terminology.hl7.org/CodeSystem/coverage-class".data, "plan".data,
   "Plan".data⟩

/-! ## `emr_server/hl7_converter.py` -/

/-- `parse_hl7_date`: YYYYMMDD(±more) → YYYY-MM-DD, `None` on short input. -/
def parse_hl7_date (date_str : Str) : Option Str :=
  if date_str = [] ∨ date_str.length < 8 then none
  else
    some (date_str.take 4 ++ '-' :: ((date_str.drop 4).take 2)
          ++ '-' :: ((date_str.drop 6).take 2))

/-- `parse_hl7_name`: split the XPN field on `^`; family is component 0,
given collects non-empty components 1 and 2. -/
def parse_hl7_name (name_field : Str) : HumanName :=
  let name_parts := splitOnChar '^' name_field
  { use := "official".data,
    family := name_parts.headD [],
    given :=
      (match name_parts.get? 1 with
       | some s => if s ≠ [] then [s] else []
       | none => []) ++
      (match name_parts.get? 2 with
       | some s => if s ≠ [] then [s] else []
       | none => []) }

/-- The gender table of `pid_to_fhir_patient`: `dict.get(code, "unknown")`
after upper-casing. -/
def gender_map (g : Str) : Str :=
  if g = "M".data then "male".data
  else if g = "F".data then "female".data
  else if g = "O".data then "other".data
  else if g = "U".data then "unknown".data
  else "unknown".data

/-- The full gender mapping applied to a raw PID-8 value. -/
def hl7GenderOf (s : Str) : Str := gender_map (pyUpper s)

/-- `pid_to_fhir_patient`. -/
def pid_to_fhir_patient (pid_segment : List Str) : Patient :=
  { identifier :=
      if 3 < pid_segment.length ∧ fieldAt pid_segment 3 ≠ [] then
        [{ use := "usual".data, coding := mrCoding,
           value := (splitOnChar '^' (fieldAt pid_segment 3)).headD [] }]
      else [],
    name :=
      if 5 < pid_segment.length ∧ fieldAt pid_segment 5 ≠ [] then
        [parse_hl7_name (fieldAt pid_segment 5)]
      else [],
    birthDate :=
      if 7 < pid_segment.length ∧ fieldAt pid_segment 7 ≠ [] then
        parse_hl7_date (fieldAt pid_segment 7)
      else none,
    gender :=
      if 8 < pid_segment.length ∧ fieldAt pid_segment 8 ≠ [] then
        hl7GenderOf (fieldAt pid_segment 8)
      else "unknown".data }

/-- `in1_to_fhir_coverage`. -/
def in1_to_fhir_coverage (in1_segment : List Str) (patient_reference : Str) :
    Coverage :=
  { status := "active".data,
    beneficiary := patient_reference,
    subscriberId :=
      if 2 < in1_segment.length ∧ fieldAt in1_segment 2 ≠ [] then
        some ((splitOnChar '^' (fieldAt in1_segment 2)).headD [])
      else none,
    payor :=
      if 4 < in1_segment.length ∧ fieldAt in1_segment 4 ≠ [] then
        [fieldAt in1_segment 4]
      else [],
    cls :=
      (if 8 < in1_segment.length ∧ fieldAt in1_segment 8 ≠ [] then
        (let group_number := pyStrip (fieldAt in1_segment 8)
         if group_number ≠ [] then [⟨groupCoding, group_number, none⟩] else [])
      else []) ++
      (if 9 < in1_segment.length ∧ fieldAt in1_segment 9 ≠ [] then
        (let plan_name := pyStrip (fieldAt in1_segment 9)
         if plan_name ≠ [] then [⟨planCoding, plan_name, some plan_name⟩] else [])
      else []) }

/-- Whether a parsed segment's type (field 0) is the given name. -/
def segIs (t : Str) (seg : List Str) : Bool := seg.headD [] = t

/-- One step of the segment loop of `convert_hl7_to_fhir`: each PID / IN1
encountered overwrites the previously remembered one. -/
def segStep (acc : Option (List Str) × Option (List Str)) (seg : List Str) :
    Option (List Str) × Option (List Str) :=
  if segIs "PID".data seg then (some seg, acc.2)
  else if segIs "IN1".data seg then (acc.1, some seg)
  else acc

/-- Building the result from the remembered PID / IN1 segments
(the tail of `convert_hl7_to_fhir` after its loop). -/
def mkConv (pidSeg in1Seg : Option (List Str)) : ConvResult :=
  match pidSeg with
  | none => ⟨none, none⟩
  | some pid =>
    let patient := pid_to_fhir_patient pid
    ⟨some patient,
     match in1Seg with
     | none => none
     | some in1 =>
       let patient_id :=
         match patient.identifier with
         | [] => "temp".data
         | i :: _ => i.value
       some (in1_to_fhir_coverage in1 ("Patient/".data ++ patient_id))⟩

/-- `convert_hl7_to_fhir`, from the already-parsed segment list. -/
def convSegments (segments : List (List Str)) : ConvResult :=
  let acc := segments.foldl segStep (none, none)
  mkConv acc.1 acc.2

/-- `parse_hl7_message`: normalize CRLF/LF to CR, then `hl7.parse`
(modelled as: strip, split on CR into segments, split each on `|`). -/
def parse_hl7_message (hl7_message : Str) : List (List Str) :=
  (splitOnChar '\r' (pyStrip (lfToCr (normCRLF hl7_message)))).map
    (splitOnChar '|')

/-- `convert_hl7_to_fhir` on the raw message string. -/
def convert_hl7_to_fhir (hl7_message : Str) : ConvResult :=
  convSegments (parse_hl7_message hl7_message)

/-! ## `integration_service/hl7_generator.py` -/

/-- `format_date_for_hl7`: MM/DD/YYYY → YYYYMMDD, `ValueError` on any
other shape (strict split on `/` into exactly three parts). -/
def format_date_for_hl7 (date_str : Str) : Except Str Str :=
  match splitOnChar '/' date_str with
  | [month, day, year] => .ok (year ++ zfill 2 month ++ zfill 2 day)
  | _ => .error ("Invalid date format. Expected MM/DD/YYYY, got ".data ++ date_str)

/-- The `in1_parts` list built inside `generate_hl7_adt_message`: nine fixed
leading entries (the ninth is the empty string commented `Group Number field`),
then the group number or an empty string, then the plan only when provided. -/
def in1_parts_of (insurance_name member_id plan group_number : Option Str) :
    List Str :=
  ["IN1".data, "1".data, orEmpty member_id, [], orEmpty insurance_name,
   [], [], [], []]
  ++ [if truthy group_number then orEmpty group_number else []]
  ++ (if truthy plan then [orEmpty plan] else [])

/-- The IN1 segment string emitted by `generate_hl7_adt_message`. -/
def in1_segment_of (insurance_name member_id plan group_number : Option Str) :
    Str :=
  List.intercalate "|".data
    (in1_parts_of insurance_name member_id plan group_number)

/-- `generate_hl7_adt_message`; `ts` is the `datetime.now()` timestamp
string. -/
def generate_hl7_adt_message (ts : Str) (mrn : Option Str)
    (last_name first_name dob gender : Str)
    (insurance_name member_id plan group_number : Option Str) :
    Except Str Str :=
  let mrn2 : Str := if truthy mrn then orEmpty mrn else "MRN".data ++ ts
  let msg_id : Str := "MSG".data ++ ts
  let msh : Str :=
    "MSH|^~\\&|INTEGRATION|CLINIC|EMR|HOSPITAL|".data ++ ts
      ++ "||ADT^A04|".data ++ msg_id ++ "|P|2.5".data
  match format_date_for_hl7 dob with
  | .error e => .error e
  | .ok hl7_dob =>
    let hl7_gender : Str :=
      if pyUpper gender = "MALE".data ∨ pyUpper gender = "M".data
      then "M".data else "F".data
    let pid : Str :=
      "PID|1||".data ++ mrn2 ++ "^^^MRN||".data ++ last_name ++ "^".data
        ++ first_name ++ "||".data ++ hl7_dob ++ "|".data ++ hl7_gender
    let segments : List Str :=
      if truthy insurance_name ∧ truthy member_id then
        [msh, pid, in1_segment_of insurance_name member_id plan group_number]
      else [msh, pid]
    .ok (List.intercalate "\r".data segments)

/-! ## `integration_service/patient_service.py` -/

structure InsuranceInfo where
  name : Str
  memberID : Str
  plan : Str
  groupNumber : Str
deriving DecidableEq, Repr

structure PatientData where
  mrn : Option Str
  lastName : Str
  firstName : Str
  dob : Str
  gender : Str
  insurance : Option InsuranceInfo
deriving DecidableEq, Repr

/-- `patient_service.format_date_for_hl7`: same computation, any failure
re-raised as an HTTP 400 with the same detail message. -/
def ps_format_date_for_hl7 (date_str : Str) : Except Str Str :=
  match splitOnChar '/' date_str with
  | [month, day, year] => .ok (year ++ zfill 2 month ++ zfill 2 day)
  | _ => .error ("Invalid date format. Expected MM/DD/YYYY, got ".data ++ date_str)

/-- `patient_service.generate_hl7_message`; `ts` is the `datetime.now()`
timestamp string. -/
def generate_hl7_message (ts : Str) (patient_data : PatientData) :
    Except Str Str :=
  let msg_id : Str := "MSG".data ++ ts
  let msh : Str :=
    "MSH|^~\\&|INTEGRATION|CLINIC|EMR|HOSPITAL|".data ++ ts
      ++ "||ADT^A04|".data ++ msg_id ++ "|P|2.5".data
  let mrn : Str :=
    if truthy patient_data.mrn then orEmpty patient_data.mrn
    else "MRN".data ++ ts
  match ps_format_date_for_hl7 patient_data.dob with
  | .error e => .error e
  | .ok dob =>
    let gender : Str :=
      if pyUpper patient_data.gender = "MALE".data
         ∨ pyUpper patient_data.gender = "M".data
      then "M".data else "F".data
    let pid : Str :=
      "PID|1||".data ++ mrn ++ "^^^MRN||".data ++ patient_data.lastName
        ++ "^".data ++ patient_data.firstName ++ "||".data ++ dob
        ++ "|".data ++ gender
    let segments : List Str :=
      match patient_data.insurance with
      | some ins =>
        [msh, pid,
         "IN1|1|".data ++ ins.memberID ++ "||".data ++ ins.name
           ++ "|||||".data ++ ins.groupNumber ++ "|".data ++ ins.plan]
      | none => [msh, pid]
    .ok (List.intercalate "\r".data segments)

/-! ## Concrete messages used by the claims -/

/-- The accepted-test message of `emr_server/test_server.py` (a Python
triple-quoted string, so its line separator is LF). -/
def c1TestMsg : Str :=
  ("MSH|^~\\&|EPIC|HOSPITAL|EMR|CLINIC|20231031120000||ADT^A04|MSG00001|P|2.5\n"
   ++ "PID|1||MRN123456^^^MRN||Smith^John^A||19801215|M|||123 Main St^^Boston^MA^02101||555-1234|||S||ACCT123456\n"
   ++ "IN1|1|PPO123|BC001|BlueCross BlueShield|PO Box 1234^^Boston^MA^02101|||||GRP456789|Gold Plan PPO").data

/-- A message with two PID segments carrying different MRNs and two IN1
segments carrying different member ids. -/
def dupSegMsg : Str :=
  ("MSH|^~\\&|EPIC|HOSPITAL|EMR|CLINIC|20231031120000||ADT^A04|MSG00002|P|2.5\r"
   ++ "PID|1||FIRST^^^MRN||Smith^John||19801215|M\r"
   ++ "PID|1||SECOND^^^MRN||Jones^Jane||19900101|F\r"
   ++ "IN1|1|MEM1||Aetna||||GA|PA\r"
   ++ "IN1|1|MEM2||Cigna||||GB|PB").data

/-! ## Helper lemmas about the string primitives -/

theorem splitOnChar_ne_nil (c : Char) (s : Str) : splitOnChar c s ≠ [] := by
  induction s with
  | nil => simp [splitOnChar]
  | cons x xs ih =>
    simp only [splitOnChar]
    split
    · simp
    · cases h : splitOnChar c xs <;> simp

theorem splitOnChar_of_not_mem (c : Char) (s : Str) (h : c ∉ s) :
    splitOnChar c s = [s] := by
  induction s with
  | nil => rfl
  | cons x xs ih =>
    simp only [List.mem_cons, not_or] at h
    simp only [splitOnChar, if_neg (Ne.symm h.1), ih h.2]

theorem splitOnChar_append (c : Char) (xs ys : Str) (h : c ∉ xs) :
    splitOnChar c (xs ++ c :: ys) = xs :: splitOnChar c ys := by
  induction xs with
  | nil => simp [splitOnChar]
  | cons x t ih =>
    simp only [List.mem_cons, not_or] at h
    simp only [List.cons_append, List.append_eq, splitOnChar,
      if_neg (Ne.symm h.1), ih h.2]

theorem normCRLF_of_not_lf (s : Str) (h : '\n' ∉ s) : normCRLF s = s := by
  induction s using normCRLF.induct with
  | case1 => rfl
  | case2 x => rfl
  | case3 x y rest hxy ih =>
    simp only [List.mem_cons, not_or] at h
    exact absurd hxy.2.symm h.2.1
  | case4 x y rest hxy ih =>
    simp only [List.mem_cons, not_or] at h
    rw [normCRLF, if_neg hxy,
      ih (by simp only [List.mem_cons, not_or]; exact ⟨h.2.1, h.2.2⟩)]

theorem lfToCr_of_not_lf (s : Str) (h : '\n' ∉ s) : lfToCr s = s := by
  unfold lfToCr
  conv_rhs => rw [← List.map_id s]
  exact List.map_congr_left fun c hc =>
    if_neg (show ¬(c = '\n') from fun he => h (he ▸ hc))

theorem dropWhile_head_not (p : Char → Bool) (s : Str)
    (h : ∀ c, s.head? = some c → p c = false) : s.dropWhile p = s := by
  cases s with
  | nil => rfl
  | cons x xs => simp [List.dropWhile, h x rfl]

theorem pyStrip_eq_self (s : Str)
    (h1 : ∀ c, s.head? = some c → c.isWhitespace = false)
    (h2 : ∀ c, s.getLast? = some c → c.isWhitespace = false) :
    pyStrip s = s := by
  unfold pyStrip
  rw [dropWhile_head_not _ _ h1,
    dropWhile_head_not _ _ (fun c hc => h2 c (by rwa [List.head?_reverse] at hc)),
    List.reverse_reverse]

/-! ## The segment loop keeps the final occurrence of each segment type -/

/-- The last segment of a given type in a parsed message. -/
def lastNamed (t : Str) (segments : List (List Str)) : Option (List Str) :=
  segments.reverse.find? (segIs t)

theorem segStep_fst (acc : Option (List Str) × Option (List Str))
    (seg : List Str) :
    (segStep acc seg).1 =
      ((if segIs "PID".data seg then some seg else none).or acc.1) := by
  unfold segStep
  by_cases h : segIs "PID".data seg = true
  · simp [h]
  · by_cases h2 : segIs "IN1".data seg = true <;>
      simp [h, h2, Option.none_or]

theorem segStep_snd (acc : Option (List Str) × Option (List Str))
    (seg : List Str) :
    (segStep acc seg).2 =
      ((if segIs "IN1".data seg then some seg else none).or acc.2) := by
  unfold segStep
  by_cases h : segIs "PID".data seg = true
  · have h2 : segIs "IN1".data seg = false := by
      unfold segIs at h ⊢
      simp only [decide_eq_true_eq] at h
      rw [h]
      decide
    simp [h, h2, Option.none_or]
  · by_cases h2 : segIs "IN1".data seg = true <;>
      simp [h, h2, Option.none_or]

theorem lastNamed_cons (t : Str) (s : List Str) (rest : List (List Str)) :
    lastNamed t (s :: rest) =
      (lastNamed t rest).or (if segIs t s then some s else none) := by
  unfold lastNamed
  rw [List.reverse_cons, List.find?_append]
  congr 1
  by_cases h : segIs t s = true <;> simp [List.find?, h]

theorem foldl_segStep (segments : List (List Str))
    (acc : Option (List Str) × Option (List Str)) :
    segments.foldl segStep acc =
      ((lastNamed "PID".data segments).or acc.1,
       (lastNamed "IN1".data segments).or acc.2) := by
  induction segments generalizing acc with
  | nil => simp [lastNamed, Option.none_or]
  | cons s rest ih =>
    rw [List.foldl_cons, ih, lastNamed_cons, lastNamed_cons,
      Option.or_assoc, Option.or_assoc, segStep_fst, segStep_snd]

/-- `convert_hl7_to_fhir` is determined by the LAST PID and the LAST IN1
segment of the message. -/
theorem convSegments_eq_mkConv_last (segments : List (List Str)) :
    convSegments segments =
      mkConv (lastNamed "PID".data segments) (lastNamed "IN1".data segments) := by
  unfold convSegments
  rw [foldl_segStep]
  simp [Option.or_none]

/-! ## Claims -/

/-- C1 (counterexample): in the accepted-test message, the IN1 segment does
NOT carry `GRP456789` at field index 8 and `Gold Plan PPO` at field index 9
(they sit at indices 10 and 11, index 8 and 9 being empty), and converting
the message yields a Coverage with NO class entries. -/
theorem c1_claim_false_on_test_message :
    fieldAt ((parse_hl7_message c1TestMsg).getD 2 []) 0 = "IN1".data
    ∧ fieldAt ((parse_hl7_message c1TestMsg).getD 2 []) 8 = []
    ∧ fieldAt ((parse_hl7_message c1TestMsg).getD 2 []) 9 = []
    ∧ fieldAt ((parse_hl7_message c1TestMsg).getD 2 []) 10 = "GRP456789".data
    ∧ fieldAt ((parse_hl7_message c1TestMsg).getD 2 []) 11 = "Gold Plan PPO".data
    ∧ (convert_hl7_to_fhir c1TestMsg).coverage =
        some { status := "active".data,
               beneficiary := "Patient/MRN123456".data,
               payor := ["BlueCross BlueShield".data],
               subscriberId := some "PPO123".data,
               cls := [] } := by
  decide

/-- C1 (amended): converting the accepted-test message yields the Patient
with identifier `MRN123456`, name `Smith`/`[John, A]`, gender `male`,
birthDate `1980-12-15`, and a Coverage with subscriberId `PPO123`, payor
display `BlueCross BlueShield`, beneficiary `Patient/MRN123456` and no
class entries (the test message's group number and plan sit at IN1 field
indices 10 and 11, which the mapper does not read). -/
theorem c1_convert_test_message :
    convert_hl7_to_fhir c1TestMsg =
      { patient :=
          some { identifier := [{ use := "usual".data, coding := mrCoding,
                                  value := "MRN123456".data }],
                 name := [{ use := "official".data, family := "Smith".data,
                            given := ["John".data, "A".data] }],
                 gender := "male".data,
                 birthDate := some "1980-12-15".data },
        coverage :=
          some { status := "active".data,
                 beneficiary := "Patient/MRN123456".data,
                 payor := ["BlueCross BlueShield".data],
                 subscriberId := some "PPO123".data,
                 cls := [] } } := by
  decide

/-- C7: for every date string of length at least 8, `parse_hl7_date` returns
characters 0-3, a dash, characters 4-5, a dash, characters 6-7; for every
shorter (or empty) string it returns `none`. -/
theorem c7_parse_hl7_date :
    (∀ d : Str, 8 ≤ d.length →
        parse_hl7_date d =
          some (d.take 4 ++ '-' :: ((d.drop 4).take 2)
                ++ '-' :: ((d.drop 6).take 2)))
    ∧ (∀ d : Str, d.length < 8 → parse_hl7_date d = none) := by
  constructor
  · intro d h
    unfold parse_hl7_date
    rw [if_neg]
    push_neg
    refine ⟨fun he => ?_, by omega⟩
    rw [he] at h
    simp at h
  · intro d h
    unfold parse_hl7_date
    rw [if_pos (Or.inr h)]

/-- C7 witness: a concrete 8-character date and a concrete short date. -/
theorem c7_witness :
    parse_hl7_date "19801215".data = some "1980-12-15".data
    ∧ parse_hl7_date "1980".data = none := by
  constructor
  · rw [c7_parse_hl7_date.1 "19801215".data (by decide)]
    decide
  · exact c7_parse_hl7_date.2 "1980".data (by decide)

/-- C8: the gender mapping upper-cases its input and maps it through the
fixed table, is total (always one of male/female/other/unknown), maps the
concrete samples m/F/o/x/"" as claimed, and an absent or empty PID-8 field
leaves the Patient gender "unknown". -/
theorem c8_gender_total :
    (∀ s : Str, hl7GenderOf s = gender_map (pyUpper s))
    ∧ (∀ s : Str, hl7GenderOf s = "male".data ∨ hl7GenderOf s = "female".data
        ∨ hl7GenderOf s = "other".data ∨ hl7GenderOf s = "unknown".data)
    ∧ hl7GenderOf "m".data = "male".data
    ∧ hl7GenderOf "F".data = "female".data
    ∧ hl7GenderOf "o".data = "other".data
    ∧ hl7GenderOf "x".data = "unknown".data
    ∧ hl7GenderOf [] = "unknown".data
    ∧ (∀ pid_segment : List Str,
        (pid_segment.length ≤ 8 ∨ fieldAt pid_segment 8 = []) →
        (pid_to_fhir_patient pid_segment).gender = "unknown".data) := by
  refine ⟨fun s => rfl, fun s => ?_, by decide, by decide, by decide,
    by decide, by decide, fun pid h => ?_⟩
  · unfold hl7GenderOf gender_map
    split_ifs <;> simp
  · show (if 8 < pid.length ∧ fieldAt pid 8 ≠ [] then
        hl7GenderOf (fieldAt pid 8) else "unknown".data) = "unknown".data
    rw [if_neg]
    rintro ⟨h1, h2⟩
    rcases h with h | h
    · omega
    · exact h2 h

/-- C8 witness: a PID segment with no field 8 yields gender "unknown". -/
theorem c8_witness :
    (pid_to_fhir_patient ["PID".data]).gender = "unknown".data :=
  c8_gender_total.2.2.2.2.2.2.2 ["PID".data] (Or.inl (by decide))

/-- C9: the generator's date conversion succeeds exactly on strings whose
`/`-split has three parts, returning year ++ zero-padded month ++
zero-padded day, and fails with the invalid-date error otherwise; in
particular `1980-12-15` fails, and `generate_hl7_adt_message` fails
likewise for that dob. -/
theorem c9_format_date :
    (∀ d m dd y : Str, splitOnChar '/' d = [m, dd, y] →
        format_date_for_hl7 d = .ok (y ++ zfill 2 m ++ zfill 2 dd))
    ∧ (∀ d : Str, (splitOnChar '/' d).length ≠ 3 →
        format_date_for_hl7 d =
          .error ("Invalid date format. Expected MM/DD/YYYY, got ".data ++ d))
    ∧ format_date_for_hl7 "1980-12-15".data =
        .error ("Invalid date format. Expected MM/DD/YYYY, got ".data
                ++ "1980-12-15".data)
    ∧ (∀ (ts : Str) (mrn : Option Str) (ln fn g : Str)
        (n mid p grp : Option Str),
        generate_hl7_adt_message ts mrn ln fn "1980-12-15".data g n mid p grp
          = .error ("Invalid date format. Expected MM/DD/YYYY, got ".data
                    ++ "1980-12-15".data)) := by
  refine ⟨fun d m dd y h => ?_, fun d h => ?_, rfl,
    fun ts mrn ln fn g n mid p grp => rfl⟩
  · unfold format_date_for_hl7
    rw [h]
  · unfold format_date_for_hl7
    rcases hl : splitOnChar '/' d with _ | ⟨a, _ | ⟨b, _ | ⟨c, _ | ⟨e, t⟩⟩⟩⟩ <;>
      first
        | rfl
        | (rw [hl] at h; simp at h)

/-- C9 witness: a concrete well-formed date and the generator at the
malformed date. -/
theorem c9_witness :
    format_date_for_hl7 "12/15/1980".data =
      .ok ("1980".data ++ zfill 2 "12".data ++ zfill 2 "15".data) :=
  c9_format_date.1 "12/15/1980".data "12".data "15".data "1980".data
    (by decide)

theorem segIs_PID_not_IN1 (seg : List Str)
    (h : segIs "PID".data seg = true) : segIs "IN1".data seg = false := by
  unfold segIs at h ⊢
  simp only [decide_eq_true_eq] at h
  rw [h]
  decide

theorem segIs_IN1_not_PID (seg : List Str)
    (h : segIs "IN1".data seg = true) : segIs "PID".data seg = false := by
  unfold segIs at h ⊢
  simp only [decide_eq_true_eq] at h
  rw [h]
  decide

theorem lastNamed_append (t : Str) (l1 l2 : List (List Str)) :
    lastNamed t (l1 ++ l2) = (lastNamed t l2).or (lastNamed t l1) := by
  unfold lastNamed
  rw [List.reverse_append, List.find?_append]

theorem lastNamed_isSome (t : Str) (segments : List (List Str)) :
    (lastNamed t segments).isSome = true
      ↔ ∃ seg ∈ segments, segIs t seg = true := by
  unfold lastNamed
  rw [List.find?_isSome]
  simp [List.mem_reverse]

/-- Dropping a PID (resp. IN1) segment that is followed by a later one of
the same type does not change the remembered last segment. -/
theorem lastNamed_drop_dup (t : Str) (pre post : List (List Str))
    (d : List Str) (_hd : segIs t d = true)
    (hpost : (lastNamed t post).isSome = true) :
    lastNamed t (pre ++ d :: post) = lastNamed t (pre ++ post) := by
  obtain ⟨v, hv⟩ := Option.isSome_iff_exists.mp hpost
  rw [show (d :: post : List (List Str)) = [d] ++ post from rfl,
    ← List.append_assoc, lastNamed_append, lastNamed_append, hv,
    lastNamed_append t pre post, hv]
  rfl

/-- Dropping any segment of the OTHER type than `t` does not change the
remembered last segment of type `t`. -/
theorem lastNamed_drop_other (t : Str) (pre post : List (List Str))
    (d : List Str) (hd : segIs t d = false) :
    lastNamed t (pre ++ d :: post) = lastNamed t (pre ++ post) := by
  rw [show (d :: post : List (List Str)) = [d] ++ post from rfl,
    ← List.append_assoc, lastNamed_append, lastNamed_append,
    lastNamed_append t pre post]
  have h1 : lastNamed t [d] = none := by
    unfold lastNamed
    simp [List.find?, hd]
  rw [h1]
  cases lastNamed t post <;> rfl

/-- C3 (counterexample): on a message with two PID and two IN1 segments,
`convert_hl7_to_fhir` builds the Patient from the SECOND PID (MRN `SECOND`)
and the Coverage from the SECOND IN1 (member `MEM2`), not from the first
of each — so the later duplicates are the ones that take effect. -/
theorem c3_first_segment_not_used :
    (convert_hl7_to_fhir dupSegMsg).patient =
      some { identifier := [{ use := "usual".data, coding := mrCoding,
                              value := "SECOND".data }],
             name := [{ use := "official".data, family := "Jones".data,
                        given := ["Jane".data] }],
             gender := "female".data,
             birthDate := some "1990-01-01".data }
    ∧ (convert_hl7_to_fhir dupSegMsg).coverage =
        some { status := "active".data,
               beneficiary := "Patient/SECOND".data,
               payor := ["Cigna".data],
               subscriberId := some "MEM2".data,
               cls := [⟨groupCoding, "GB".data, none⟩,
                       ⟨planCoding, "PB".data, some "PB".data⟩] }
    ∧ (convert_hl7_to_fhir dupSegMsg).patient ≠
        some (pid_to_fhir_patient ((parse_hl7_message dupSegMsg).getD 1 []))
    ∧ (convert_hl7_to_fhir dupSegMsg).coverage ≠
        some (in1_to_fhir_coverage ((parse_hl7_message dupSegMsg).getD 3 [])
          "Patient/FIRST".data) := by
  refine ⟨by decide, by decide, by decide, by decide⟩

/-- C3 (amended): `convert_hl7_to_fhir` builds its Patient from the LAST
PID segment and its Coverage from the LAST IN1 segment; EARLIER duplicate
PID/IN1 segments have no effect on the result. -/
theorem c3_last_segments_determine_result :
    (∀ m : Str,
      convert_hl7_to_fhir m =
        mkConv (lastNamed "PID".data (parse_hl7_message m))
               (lastNamed "IN1".data (parse_hl7_message m)))
    ∧ (∀ (pre post : List (List Str)) (d : List Str),
        segIs "PID".data d = true →
        (lastNamed "PID".data post).isSome = true →
        convSegments (pre ++ d :: post) = convSegments (pre ++ post))
    ∧ (∀ (pre post : List (List Str)) (d : List Str),
        segIs "IN1".data d = true →
        (lastNamed "IN1".data post).isSome = true →
        convSegments (pre ++ d :: post) = convSegments (pre ++ post)) := by
  refine ⟨fun m => convSegments_eq_mkConv_last _, ?_, ?_⟩
  · intro pre post d hd hpost
    rw [convSegments_eq_mkConv_last, convSegments_eq_mkConv_last,
      lastNamed_drop_dup _ _ _ _ hd hpost,
      lastNamed_drop_other _ _ _ _ (segIs_PID_not_IN1 _ hd)]
  · intro pre post d hd hpost
    rw [convSegments_eq_mkConv_last, convSegments_eq_mkConv_last,
      lastNamed_drop_dup _ _ _ _ hd hpost,
      lastNamed_drop_other _ _ _ _ (segIs_IN1_not_PID _ hd)]

/-- C3 witness: dropping an earlier duplicate PID before a later PID leaves
the result unchanged, at a concrete segment list. -/
theorem c3_witness :
    convSegments [["PID".data, "1".data, [], "X^^^MRN".data],
                  ["PID".data, "1".data, [], "Y^^^MRN".data]]
      = convSegments [["PID".data, "1".data, [], "Y^^^MRN".data]] :=
  c3_last_segments_determine_result.2.1 []
    [["PID".data, "1".data, [], "Y^^^MRN".data]]
    ["PID".data, "1".data, [], "X^^^MRN".data] (by decide) (by decide)

/-- C4: a Patient is produced iff the message contains a PID segment; a
Coverage is produced iff it contains both a PID and an IN1 segment (no
PID means neither resource); a produced Coverage's beneficiary reference
is `Patient/` followed by the Patient's first identifier value, or by
`temp` when the Patient has no identifier; with no IN1 the coverage
entry of the result is `none`. -/
theorem c4_presence_and_beneficiary (m : Str) :
    ((convert_hl7_to_fhir m).patient.isSome = true
      ↔ ∃ seg ∈ parse_hl7_message m, segIs "PID".data seg = true)
    ∧ ((convert_hl7_to_fhir m).coverage.isSome = true
      ↔ ((∃ seg ∈ parse_hl7_message m, segIs "PID".data seg = true)
          ∧ (∃ seg ∈ parse_hl7_message m, segIs "IN1".data seg = true)))
    ∧ (∀ cov, (convert_hl7_to_fhir m).coverage = some cov →
        ∃ p, (convert_hl7_to_fhir m).patient = some p
          ∧ cov.beneficiary = "Patient/".data ++
              (match p.identifier with
               | [] => "temp".data
               | i :: _ => i.value))
    ∧ ((¬ ∃ seg ∈ parse_hl7_message m, segIs "IN1".data seg = true) →
        (convert_hl7_to_fhir m).coverage = none) := by
  rw [show convert_hl7_to_fhir m
      = mkConv (lastNamed "PID".data (parse_hl7_message m))
               (lastNamed "IN1".data (parse_hl7_message m))
      from convSegments_eq_mkConv_last _,
    ← lastNamed_isSome "PID".data (parse_hl7_message m),
    ← lastNamed_isSome "IN1".data (parse_hl7_message m)]
  rcases hp : lastNamed "PID".data (parse_hl7_message m) with _ | pid <;>
    rcases hi : lastNamed "IN1".data (parse_hl7_message m) with _ | in1 <;>
      simp only [mkConv, Option.isSome_none, Option.isSome_some] <;>
        refine ⟨by simp, by simp, ?_, by simp⟩
  · intro cov hcov
    simp at hcov
  · intro cov hcov
    simp at hcov
  · intro cov hcov
    simp at hcov
  · intro cov hcov
    refine ⟨pid_to_fhir_patient pid, rfl, ?_⟩
    cases hcov
    rfl

/-- C4 witness: a concrete message with a PID and no IN1 yields no
coverage. -/
theorem c4_witness :
    (convert_hl7_to_fhir
      ("MSH|^~\\&|A|B|C|D|20230101||ADT^A04|M1|P|2.5\rPID|1||W^^^MRN".data)).coverage
      = none :=
  (c4_presence_and_beneficiary _).2.2.2 (by decide)

theorem intercalate_cons_cons (c : Char) (s r : Str) (t : List Str) :
    List.intercalate [c] (s :: r :: t) =
      s ++ c :: List.intercalate [c] (r :: t) := by
  simp [List.intercalate, List.intersperse]

theorem intercalate_singleton (c : Char) (s : Str) :
    List.intercalate [c] [s] = s := by
  simp [List.intercalate, List.intersperse]

/-- Splitting on `c` undoes joining with `c` when no part contains `c`. -/
theorem splitOnChar_intercalate (c : Char) (parts : List Str)
    (hne : parts ≠ []) (h : ∀ s ∈ parts, c ∉ s) :
    splitOnChar c (List.intercalate [c] parts) = parts := by
  induction parts with
  | nil => exact absurd rfl hne
  | cons s rest ih =>
    cases rest with
    | nil =>
      rw [intercalate_singleton,
        splitOnChar_of_not_mem c s (h s (List.mem_cons_self s []))]
    | cons r t =>
      rw [intercalate_cons_cons,
        splitOnChar_append c s _ (h s (List.mem_cons_self s (r :: t))),
        ih (by simp) (fun x hx => h x (List.mem_cons_of_mem s hx))]

/-- C5 (counterexample): with insurance name and member id supplied but no
plan and no group number, the emitted IN1 segment is `IN1|1|M1||Aetna|||||`
with 10 fields — the absent group number does occupy an empty field, but
the absent plan is omitted entirely, so the segment has a different number
of positional fields than when a plan is supplied (11). -/
theorem c5_absent_plan_is_omitted :
    in1_segment_of (some "Aetna".data) (some "M1".data) none none
      = "IN1|1|M1||Aetna|||||".data
    ∧ (splitOnChar '|'
        (in1_segment_of (some "Aetna".data) (some "M1".data) none none)).length
      = 10
    ∧ (splitOnChar '|'
        (in1_segment_of (some "Aetna".data) (some "M1".data)
          (some "Gold".data) none)).length = 11
    ∧ (splitOnChar '|'
        (in1_segment_of (some "Aetna".data) (some "M1".data) none none)).length
      ≠ (splitOnChar '|'
          (in1_segment_of (some "Aetna".data) (some "M1".data)
            (some "Gold".data) none)).length := by
  refine ⟨by decide, by decide, by decide, by decide⟩

/-- C5 (amended): the generated message is exactly the MSH segment and the
PID segment, with an IN1 segment appended iff both the insurance name and
the member id are truthy (so no IN1 is appended when either is missing);
in the emitted IN1 segment an absent group number still occupies an empty
field at index 9 (field indices up to the group slot are therefore
stable), while an absent plan is omitted entirely, shortening the segment
by one field. -/
theorem c5_in1_emission :
    (∀ (ts : Str) (mrn : Option Str) (ln fn dob g : Str)
        (n mid p grp : Option Str) (hl7dob : Str),
        format_date_for_hl7 dob = .ok hl7dob →
        generate_hl7_adt_message ts mrn ln fn dob g n mid p grp
          = .ok (List.intercalate "\r".data
              (["MSH|^~\\&|INTEGRATION|CLINIC|EMR|HOSPITAL|".data ++ ts
                  ++ "||ADT^A04|".data ++ ("MSG".data ++ ts)
                  ++ "|P|2.5".data,
                "PID|1||".data
                  ++ (if truthy mrn then orEmpty mrn else "MRN".data ++ ts)
                  ++ "^^^MRN||".data ++ ln ++ "^".data ++ fn ++ "||".data
                  ++ hl7dob ++ "|".data
                  ++ (if pyUpper g = "MALE".data ∨ pyUpper g = "M".data
                      then "M".data else "F".data)]
               ++ (if truthy n ∧ truthy mid
                   then [in1_segment_of n mid p grp] else []))))
    ∧ (∀ n mid p grp : Option Str,
        '|' ∉ orEmpty n → '|' ∉ orEmpty mid → '|' ∉ orEmpty grp →
        '|' ∉ orEmpty p →
        splitOnChar '|' (in1_segment_of n mid p grp)
          = ["IN1".data, "1".data, orEmpty mid, [], orEmpty n,
             [], [], [], [], if truthy grp then orEmpty grp else []]
            ++ (if truthy p then [orEmpty p] else [])) := by
  constructor
  · intro ts mrn ln fn dob g n mid p grp hl7dob h
    unfold generate_hl7_adt_message
    rw [h]
    by_cases hc : truthy n = true ∧ truthy mid = true
    · simp only [if_pos hc]
      rfl
    · simp only [if_neg hc]
      rfl
  · intro n mid p grp hn hmid hgrp hp
    unfold in1_segment_of
    rw [splitOnChar_intercalate '|' _ (by simp [in1_parts_of])]
    · rfl
    · intro s hs
      unfold in1_parts_of at hs
      simp only [List.mem_append, List.mem_cons, List.mem_singleton,
        List.not_mem_nil, or_false] at hs
      rcases hs with ((h1 | h1 | h1 | h1 | h1 | h1 | h1 | h1 | h1) | h1) | h1
      all_goals first
        | (subst h1; first | decide | assumption | (intro hc; cases hc))
        | skip
      · split_ifs at h1
        · subst h1; assumption
        · subst h1; intro hc; cases hc
      · split_ifs at h1
        · simp only [List.mem_singleton] at h1
          subst h1; assumption
        · simp at h1

/-- C5 witness: the emitted field list at concrete insurance values with a
group number and no plan. -/
theorem c5_witness :
    splitOnChar '|'
        (in1_segment_of (some "Aetna".data) (some "M1".data) none
          (some "G7".data))
      = ["IN1".data, "1".data, "M1".data, [], "Aetna".data,
         [], [], [], [], "G7".data] := by
  have h := c5_in1_emission.2 (some "Aetna".data) (some "M1".data) none
    (some "G7".data) (by decide) (by decide) (by decide) (by decide)
  simpa using h

/-- C6: the forward mapper takes every Coverage class value from IN1 field
index 8 (group) or index 9 (plan); but the generator, even with all four
insurance values supplied, emits an empty field at index 8, the group
number at index 9 and the plan at index 10, so mapping the generated
message yields class entries (a single plan entry valued with the group
number) that differ from the supplied group/plan values. -/
theorem c6_generator_mapper_asymmetry :
    (∀ (in1_segment : List Str) (ref : Str) (e : CoverageClass),
        e ∈ (in1_to_fhir_coverage in1_segment ref).cls →
        (e.coding = groupCoding ∧ e.value = pyStrip (fieldAt in1_segment 8))
        ∨ (e.coding = planCoding ∧ e.value = pyStrip (fieldAt in1_segment 9)))
    ∧ fieldAt (splitOnChar '|'
        (in1_segment_of (some "Aetna".data) (some "M1".data)
          (some "Gold".data) (some "G7".data))) 8 = []
    ∧ fieldAt (splitOnChar '|'
        (in1_segment_of (some "Aetna".data) (some "M1".data)
          (some "Gold".data) (some "G7".data))) 9 = "G7".data
    ∧ fieldAt (splitOnChar '|'
        (in1_segment_of (some "Aetna".data) (some "M1".data)
          (some "Gold".data) (some "G7".data))) 10 = "Gold".data
    ∧ generate_hl7_adt_message "20231031120000".data (some "MRN1".data)
        "Smith".data "John".data "12/15/1980".data "Male".data
        (some "Aetna".data) (some "M1".data) (some "Gold".data)
        (some "G7".data)
      = .ok ("MSH|^~\\&|INTEGRATION|CLINIC|EMR|HOSPITAL|20231031120000||ADT^A04|MSG20231031120000|P|2.5\rPID|1||MRN1^^^MRN||Smith^John||19801215|M\rIN1|1|M1||Aetna|||||G7|Gold".data)
    ∧ (convert_hl7_to_fhir
        ("MSH|^~\\&|INTEGRATION|CLINIC|EMR|HOSPITAL|20231031120000||ADT^A04|MSG20231031120000|P|2.5\rPID|1||MRN1^^^MRN||Smith^John||19801215|M\rIN1|1|M1||Aetna|||||G7|Gold".data)).coverage
      = some { status := "active".data,
               beneficiary := "Patient/MRN1".data,
               payor := ["Aetna".data],
               subscriberId := some "M1".data,
               cls := [⟨planCoding, "G7".data, some "G7".data⟩] }
    ∧ [CoverageClass.mk planCoding "G7".data (some "G7".data)]
      ≠ [⟨groupCoding, "G7".data, none⟩,
         ⟨planCoding, "Gold".data, some "Gold".data⟩] := by
  refine ⟨?_, by decide, by decide, by decide, rfl, by decide, by decide⟩
  intro in1 ref e he
  have he2 : e ∈
      (if 8 < in1.length ∧ fieldAt in1 8 ≠ [] then
        (let group_number := pyStrip (fieldAt in1 8)
         if group_number ≠ [] then
           [(⟨groupCoding, group_number, none⟩ : CoverageClass)] else [])
      else []) ++
      (if 9 < in1.length ∧ fieldAt in1 9 ≠ [] then
        (let plan_name := pyStrip (fieldAt in1 9)
         if plan_name ≠ [] then
           [(⟨planCoding, plan_name, some plan_name⟩ : CoverageClass)] else [])
      else []) := he
  rcases List.mem_append.mp he2 with h | h
  · left
    clear he he2
    simp only [ne_eq] at h
    split_ifs at h <;> simp_all
  · right
    clear he he2
    simp only [ne_eq] at h
    split_ifs at h <;> simp_all

/-- C6 witness: the mapper's class values at a concrete IN1 segment come
from field indices 8 and 9. -/
theorem c6_witness :
    (⟨groupCoding, "G8".data, none⟩ : CoverageClass).coding = groupCoding
      ∧ (⟨groupCoding, "G8".data, none⟩ : CoverageClass).value
        = pyStrip (fieldAt (splitOnChar '|'
            "IN1|1|M1||Aetna||||G8|P9".data) 8)
      ∨ (⟨groupCoding, "G8".data, none⟩ : CoverageClass).coding = planCoding
        ∧ (⟨groupCoding, "G8".data, none⟩ : CoverageClass).value
          = pyStrip (fieldAt (splitOnChar '|'
              "IN1|1|M1||Aetna||||G8|P9".data) 9) :=
  c6_generator_mapper_asymmetry.1
    (splitOnChar '|' "IN1|1|M1||Aetna||||G8|P9".data) "Patient/X".data
    ⟨groupCoding, "G8".data, none⟩ (by decide)

theorem truthy_some_of_ne (s : Str) (h : s ≠ []) : truthy (some s) = true := by
  simp [truthy, List.isEmpty_iff, h]

/-- The generator's joined IN1 segment, with all four insurance values
supplied, as one flat string. -/
theorem in1_segment_full (n mid p grp : Str) (hgrp : grp ≠ []) (hp : p ≠ []) :
    in1_segment_of (some n) (some mid) (some p) (some grp)
      = "IN1|1|".data ++ mid ++ "||".data ++ n ++ "|||||".data ++ grp
        ++ "|".data ++ p := by
  unfold in1_segment_of in1_parts_of
  simp only [truthy_some_of_ne grp hgrp, truthy_some_of_ne p hp, if_true,
    orEmpty]
  simp only [List.cons_append, List.nil_append]
  rw [intercalate_cons_cons, intercalate_cons_cons, intercalate_cons_cons,
    intercalate_cons_cons, intercalate_cons_cons, intercalate_cons_cons,
    intercalate_cons_cons, intercalate_cons_cons, intercalate_cons_cons,
    intercalate_cons_cons, intercalate_singleton]
  simp only [List.append_assoc, List.nil_append, List.cons_append]

/-- C10: on their common domain — an MRN supplied, a well-formed MM/DD/YYYY
dob, the same clock reading, and either no insurance or an insurance block
with all four values non-empty — the two HL7 generation implementations
return identical message strings. -/
theorem c10_generators_agree
    (ts m ln fn dob g n mid p grp : Str)
    (hm : m ≠ []) (hdob : (splitOnChar '/' dob).length = 3)
    (hn : n ≠ []) (hmid : mid ≠ []) (hp : p ≠ []) (hgrp : grp ≠ []) :
    generate_hl7_adt_message ts (some m) ln fn dob g none none none none
      = generate_hl7_message ts ⟨some m, ln, fn, dob, g, none⟩
    ∧ generate_hl7_adt_message ts (some m) ln fn dob g (some n) (some mid)
        (some p) (some grp)
      = generate_hl7_message ts
          ⟨some m, ln, fn, dob, g, some ⟨n, mid, p, grp⟩⟩ := by
  obtain ⟨mo, dd, yr, hsplit⟩ := List.length_eq_three.mp hdob
  have hfmt : format_date_for_hl7 dob = .ok (yr ++ zfill 2 mo ++ zfill 2 dd) := by
    unfold format_date_for_hl7
    rw [hsplit]
  have hfmt2 : ps_format_date_for_hl7 dob
      = .ok (yr ++ zfill 2 mo ++ zfill 2 dd) := by
    unfold ps_format_date_for_hl7
    rw [hsplit]
  constructor
  · unfold generate_hl7_adt_message generate_hl7_message
    rw [hfmt, hfmt2]
    simp only [truthy_some_of_ne m hm, if_true, orEmpty]
    rfl
  · unfold generate_hl7_adt_message generate_hl7_message
    rw [hfmt, hfmt2]
    simp only [truthy_some_of_ne m hm, truthy_some_of_ne n hn,
      truthy_some_of_ne mid hmid, if_true, and_self, orEmpty]
    rw [in1_segment_full n mid p grp hgrp hp]

/-- C10 witness: the two generators at one concrete patient with full
insurance. -/
theorem c10_witness :
    generate_hl7_adt_message "20231031120000".data (some "MRN1".data)
        "Smith".data "John".data "12/15/1980".data "Male".data
        (some "Aetna".data) (some "M1".data) (some "Gold".data)
        (some "G7".data)
      = generate_hl7_message "20231031120000".data
          ⟨some "MRN1".data, "Smith".data, "John".data, "12/15/1980".data,
           "Male".data,
           some ⟨"Aetna".data, "M1".data, "Gold".data, "G7".data⟩⟩ :=
  (c10_generators_agree "20231031120000".data "MRN1".data "Smith".data
    "John".data "12/15/1980".data "Male".data "Aetna".data "M1".data
    "Gold".data "G7".data (by decide) (by decide) (by decide) (by decide)
    (by decide) (by decide)).2

/-- C2: feeding the generator's output for mrn `MRN1`, name `Smith`/`John`,
dob `12/15/1980`, gender `Male`, no insurance, into `convert_hl7_to_fhir`
yields a Patient whose identifier value is `MRN1`, whose single name is
family `Smith` with given `[John]`, whose birthDate is `1980-12-15` and
whose gender is `male`, for every clock reading (digit string) used as the
message timestamp. -/
theorem c2_roundtrip (ts : Str) (hts : ∀ c ∈ ts, c.isDigit = true) :
    ∃ msg : Str,
      generate_hl7_adt_message ts (some "MRN1".data) "Smith".data "John".data
          "12/15/1980".data "Male".data none none none none = .ok msg
      ∧ (convert_hl7_to_fhir msg).patient =
          some { identifier := [{ use := "usual".data, coding := mrCoding,
                                  value := "MRN1".data }],
                 name := [{ use := "official".data, family := "Smith".data,
                            given := ["John".data] }],
                 gender := "male".data,
                 birthDate := some "1980-12-15".data } := by
  have htsd : ∀ c ∈ ts, c ≠ '\n' ∧ c ≠ '\r' := by
    intro c hc
    have hd := hts c hc
    constructor <;> (intro he; subst he; exact absurd hd (by decide))
  refine ⟨("MSH|^~\\&|INTEGRATION|CLINIC|EMR|HOSPITAL|".data ++ ts
      ++ "||ADT^A04|".data ++ ("MSG".data ++ ts) ++ "|P|2.5".data)
      ++ '\r' :: "PID|1||MRN1^^^MRN||Smith^John||19801215|M".data, rfl, ?_⟩
  have hM : ∀ c : Char,
      c ∈ ("MSH|^~\\&|INTEGRATION|CLINIC|EMR|HOSPITAL|".data ++ ts
        ++ "||ADT^A04|".data ++ ("MSG".data ++ ts) ++ "|P|2.5".data) →
      c ≠ '\n' ∧ c ≠ '\r' := by
    intro c hc
    rcases List.mem_append.mp hc with h | h
    · rcases List.mem_append.mp h with h | h
      · rcases List.mem_append.mp h with h | h
        · rcases List.mem_append.mp h with h | h
          · have hlit : ∀ x ∈ "MSH|^~\\&|INTEGRATION|CLINIC|EMR|HOSPITAL|".data,
                x ≠ '\n' ∧ x ≠ '\r' := by decide
            exact hlit c h
          · exact htsd c h
        · have hlit : ∀ x ∈ "||ADT^A04|".data, x ≠ '\n' ∧ x ≠ '\r' := by decide
          exact hlit c h
      · rcases List.mem_append.mp h with h | h
        · have hlit : ∀ x ∈ "MSG".data, x ≠ '\n' ∧ x ≠ '\r' := by decide
          exact hlit c h
        · exact htsd c h
    · have hlit : ∀ x ∈ "|P|2.5".data, x ≠ '\n' ∧ x ≠ '\r' := by decide
      exact hlit c h
  have hNoLF : ('\n' : Char) ∉
      ("MSH|^~\\&|INTEGRATION|CLINIC|EMR|HOSPITAL|".data ++ ts
        ++ "||ADT^A04|".data ++ ("MSG".data ++ ts) ++ "|P|2.5".data)
      ++ '\r' :: "PID|1||MRN1^^^MRN||Smith^John||19801215|M".data := by
    intro hc
    rcases List.mem_append.mp hc with h | h
    · exact (hM '\n' h).1 rfl
    · have hlit : ∀ x ∈
          ('\r' :: "PID|1||MRN1^^^MRN||Smith^John||19801215|M".data),
          x ≠ '\n' := by decide
      exact hlit '\n' h rfl
  have hCrM : ('\r' : Char) ∉
      ("MSH|^~\\&|INTEGRATION|CLINIC|EMR|HOSPITAL|".data ++ ts
        ++ "||ADT^A04|".data ++ ("MSG".data ++ ts) ++ "|P|2.5".data) := by
    intro hc
    exact (hM '\r' hc).2 rfl
  have hparse : parse_hl7_message
      (("MSH|^~\\&|INTEGRATION|CLINIC|EMR|HOSPITAL|".data ++ ts
        ++ "||ADT^A04|".data ++ ("MSG".data ++ ts) ++ "|P|2.5".data)
        ++ '\r' :: "PID|1||MRN1^^^MRN||Smith^John||19801215|M".data)
      = ["MSH".data :: splitOnChar '|'
            ("^~\\&|INTEGRATION|CLINIC|EMR|HOSPITAL|".data ++ ts
              ++ "||ADT^A04|".data ++ ("MSG".data ++ ts) ++ "|P|2.5".data),
         splitOnChar '|'
            "PID|1||MRN1^^^MRN||Smith^John||19801215|M".data] := by
    unfold parse_hl7_message
    rw [normCRLF_of_not_lf _ hNoLF, lfToCr_of_not_lf _ hNoLF,
      pyStrip_eq_self _ (fun c hc => by
        rw [show (("MSH|^~\\&|INTEGRATION|CLINIC|EMR|HOSPITAL|".data ++ ts
            ++ "||ADT^A04|".data ++ ("MSG".data ++ ts) ++ "|P|2.5".data)
            ++ '\r' :: "PID|1||MRN1^^^MRN||Smith^John||19801215|M".data).head?
          = some 'M' from rfl] at hc
        injection hc with hc2
        subst hc2
        decide)
      (fun c hc => by
        rw [List.getLast?_append,
          show ('\r' :: "PID|1||MRN1^^^MRN||Smith^John||19801215|M".data).getLast?
          = some 'M' from rfl] at hc
        injection hc with hc2
        subst hc2
        decide),
      splitOnChar_append '\r' _ _ hCrM,
      splitOnChar_of_not_mem '\r' _ (by decide)]
    simp only [List.map]
    rw [show ("MSH|^~\\&|INTEGRATION|CLINIC|EMR|HOSPITAL|".data ++ ts
        ++ "||ADT^A04|".data ++ ("MSG".data ++ ts) ++ "|P|2.5".data)
      = "MSH".data ++ '|' :: ("^~\\&|INTEGRATION|CLINIC|EMR|HOSPITAL|".data
        ++ ts ++ "||ADT^A04|".data ++ ("MSG".data ++ ts) ++ "|P|2.5".data)
      from rfl,
      splitOnChar_append '|' _ _ (by decide)]
  rw [show convert_hl7_to_fhir
      (("MSH|^~\\&|INTEGRATION|CLINIC|EMR|HOSPITAL|".data ++ ts
        ++ "||ADT^A04|".data ++ ("MSG".data ++ ts) ++ "|P|2.5".data)
        ++ '\r' :: "PID|1||MRN1^^^MRN||Smith^John||19801215|M".data)
      = convSegments (parse_hl7_message
        (("MSH|^~\\&|INTEGRATION|CLINIC|EMR|HOSPITAL|".data ++ ts
          ++ "||ADT^A04|".data ++ ("MSG".data ++ ts) ++ "|P|2.5".data)
          ++ '\r' :: "PID|1||MRN1^^^MRN||Smith^John||19801215|M".data))
      from rfl,
    hparse, convSegments_eq_mkConv_last]
  have hA : lastNamed "PID".data
      ["MSH".data :: splitOnChar '|'
          ("^~\\&|INTEGRATION|CLINIC|EMR|HOSPITAL|".data ++ ts
            ++ "||ADT^A04|".data ++ ("MSG".data ++ ts) ++ "|P|2.5".data),
       splitOnChar '|' "PID|1||MRN1^^^MRN||Smith^John||19801215|M".data]
      = some (splitOnChar '|'
          "PID|1||MRN1^^^MRN||Smith^John||19801215|M".data) := by
    unfold lastNamed
    rw [show (["MSH".data :: splitOnChar '|'
          ("^~\\&|INTEGRATION|CLINIC|EMR|HOSPITAL|".data ++ ts
            ++ "||ADT^A04|".data ++ ("MSG".data ++ ts) ++ "|P|2.5".data),
       splitOnChar '|' "PID|1||MRN1^^^MRN||Smith^John||19801215|M".data]).reverse
      = [splitOnChar '|' "PID|1||MRN1^^^MRN||Smith^John||19801215|M".data,
         "MSH".data :: splitOnChar '|'
          ("^~\\&|INTEGRATION|CLINIC|EMR|HOSPITAL|".data ++ ts
            ++ "||ADT^A04|".data ++ ("MSG".data ++ ts) ++ "|P|2.5".data)]
      from by simp,
      List.find?_cons_of_pos _ (by decide)]
  have hB : lastNamed "IN1".data
      ["MSH".data :: splitOnChar '|'
          ("^~\\&|INTEGRATION|CLINIC|EMR|HOSPITAL|".data ++ ts
            ++ "||ADT^A04|".data ++ ("MSG".data ++ ts) ++ "|P|2.5".data),
       splitOnChar '|' "PID|1||MRN1^^^MRN||Smith^John||19801215|M".data]
      = none := by
    unfold lastNamed
    rw [show (["MSH".data :: splitOnChar '|'
          ("^~\\&|INTEGRATION|CLINIC|EMR|HOSPITAL|".data ++ ts
            ++ "||ADT^A04|".data ++ ("MSG".data ++ ts) ++ "|P|2.5".data),
       splitOnChar '|' "PID|1||MRN1^^^MRN||Smith^John||19801215|M".data]).reverse
      = [splitOnChar '|' "PID|1||MRN1^^^MRN||Smith^John||19801215|M".data,
         "MSH".data :: splitOnChar '|'
          ("^~\\&|INTEGRATION|CLINIC|EMR|HOSPITAL|".data ++ ts
            ++ "||ADT^A04|".data ++ ("MSG".data ++ ts) ++ "|P|2.5".data)]
      from by simp,
      List.find?_cons_of_neg _ (by decide),
      List.find?_cons_of_neg _ (by simp [segIs]),
      List.find?_nil]
  rw [hA, hB]
  decide

/-- C2 witness: the round trip at the concrete timestamp
`20231031120000`. -/
theorem c2_witness :
    ∃ msg : Str,
      generate_hl7_adt_message "20231031120000".data (some "MRN1".data)
          "Smith".data "John".data "12/15/1980".data "Male".data
          none none none none = .ok msg
      ∧ (convert_hl7_to_fhir msg).patient =
          some { identifier := [{ use := "usual".data, coding := mrCoding,
                                  value := "MRN1".data }],
                 name := [{ use := "official".data, family := "Smith".data,
                            given := ["John".data] }],
                 gender := "male".data,
                 birthDate := some "1980-12-15".data } :=
  c2_roundtrip "20231031120000".data (by decide)
